import Mathlib

/-!
Shallow embedding of the Reffetorio volunteers hub booking and notification
core.

Booking path: `ReservationCalendar.handleReservation` (client component) reads
the non-cancelled reservation count for the chosen date, rejects when the
count has reached the hard-coded `MAX_SLOTS = 23`, and otherwise inserts a
`pending` row; the database enforces `UNIQUE(volunteer_id, reservation_date)`
(migration 20260202143546) and a failed insert with code 23505 is reported as
a duplicate booking.

Decision path: the `confirm-reservation` edge function fetches the
reservation, sets its status to `confirmed` or `cancelled` unconditionally,
then sends a volunteer notification through the shared email sender and
reports `emailSent` as an auxiliary flag.

Notification path: `_shared/email-sender.ts` (`sendEmail`) first consults
`checkDuplicateEmail` (which forwards to the SQL function
`check_duplicate_email` only for a well-formed UUID `relatedId`), then logs a
`pending` audit row and retries the gateway up to `MAX_RETRIES = 3` times,
recording `retrying`/`sent`/`failed` updates.

Dates are modelled as day numbers with day 0 a Monday, so the weekday of day
`d` is `d % 7` (`0`–`4` service days, `5`/`6` the weekend); times are integer
minutes.
-/

/-- Reservation status as constrained by the `reservations.status` CHECK
constraint: `pending`, `confirmed` or `cancelled`. -/
inductive RStatus
  | pending
  | confirmed
  | cancelled
  deriving DecidableEq, Repr

/-- One row of the `reservations` table: the owning volunteer, the service
date (day number) and the status. -/
structure Row where
  volunteerId : Nat
  date : Nat
  status : RStatus
  deriving DecidableEq, Repr

/-- Count of reservations for `d` with status other than `cancelled`, as
computed by the `.eq("reservation_date", dateStr).neq("status", "cancelled")`
count query in `ReservationCalendar`. -/
def nonCancelledCount (rows : List Row) (d : Nat) : Nat :=
  (rows.filter fun r => r.date == d && !(r.status == RStatus.cancelled)).length

/-- Whether a row with the given `(volunteer_id, reservation_date)` key
exists; this is the key of the declarative `UNIQUE(volunteer_id,
reservation_date)` constraint, and it counts cancelled rows too. -/
def hasRow (rows : List Row) (v d : Nat) : Bool :=
  rows.any fun r => r.volunteerId == v && r.date == d

/-- Hard-coded capacity used by `ReservationCalendar` (`const MAX_SLOTS =
23`). -/
def MAX_SLOTS : Nat := 23

/-- Outcome of the reservation attempt, following the branches of
`handleReservation`: the full-slots toast, the 23505 duplicate toast, or the
success toast. -/
inductive ReserveResult
  | reserved
  | capacityExceeded
  | duplicateBooking
  deriving DecidableEq, Repr

/-- The body of `handleReservation`: re-read the non-cancelled count for the
date, bail out when `count >= MAX_SLOTS`, otherwise insert a `pending` row;
the insert surfaces error 23505 when the `(volunteer_id, reservation_date)`
unique key is already taken. Returns the outcome and the resulting table. -/
def handleReservation (rows : List Row) (v d : Nat) : ReserveResult × List Row :=
  if MAX_SLOTS ≤ nonCancelledCount rows d then
    (ReserveResult.capacityExceeded, rows)
  else if hasRow rows v d then
    (ReserveResult.duplicateBooking, rows)
  else
    (ReserveResult.reserved, rows ++ [⟨v, d, RStatus.pending⟩])

/-- Modelled from the spec: the reserve operation as §4.2/§3 describe it,
with the capacity bound taken from the CapacityPolicy value `maxPerDay`
(`admin_settings.max_volunteers_per_day`) instead of a constant. Used only to
compare the source's `handleReservation` against the spec's wording. -/
def reserveWithPolicy (maxPerDay : Nat) (rows : List Row) (v d : Nat) :
    ReserveResult × List Row :=
  if maxPerDay ≤ nonCancelledCount rows d then
    (ReserveResult.capacityExceeded, rows)
  else if hasRow rows v d then
    (ReserveResult.duplicateBooking, rows)
  else
    (ReserveResult.reserved, rows ++ [⟨v, d, RStatus.pending⟩])

/-- Day-granularity past check of the calendar (`isBefore(startOfDay(date),
startOfDay(new Date()))`). -/
def isPastDate (d today : Nat) : Bool := d < today

/-- Weekend test on day numbers (date-fns `isWeekend`: Saturday or Sunday);
with day 0 a Monday these are residues 5 and 6. -/
def isWeekendDay (d : Nat) : Bool := d % 7 == 5 || d % 7 == 6

/-- Selection guard of the calendar grid: a day button is disabled when the
day is past, full, or already reserved by this volunteer (`isDisabled =
isPast || isFull || day.hasReservation`); `setSelectedDate` runs only when
the day is not disabled. -/
def selectableDay (d today availableSlots : Nat) (hasReservation : Bool) : Bool :=
  !(isPastDate d today || availableSlots == 0 || hasReservation)

/-- Date of the `i`-th button of the calendar grid: `addDays(currentWeek, i)`
where `currentWeek = startOfWeek(..., weekStartsOn: 1)` is a Monday. -/
def weekDayDate (weekStart i : Nat) : Nat := weekStart + i

section DbOps

/-- Operations the repository performs on the `reservations` table: the
calendar's insert and the edge function's status update (updates never touch
the `(volunteer_id, reservation_date)` key, and rows are never deleted). -/
inductive DbOp
  | insert (v d : Nat)
  | setStatus (v d : Nat) (s : RStatus)

/-- Effect of one operation on the table, with the `UNIQUE(volunteer_id,
reservation_date)` constraint making a conflicting insert fail (no change to
the table). -/
def applyOp (rows : List Row) : DbOp → List Row
  | DbOp.insert v d =>
      if hasRow rows v d then rows else rows ++ [⟨v, d, RStatus.pending⟩]
  | DbOp.setStatus v d s =>
      rows.map fun r =>
        if r.volunteerId == v && r.date == d then { r with status := s } else r

/-- Table reached from the empty table by a sequence of operations. -/
def runOps (ops : List DbOp) : List Row :=
  ops.foldl applyOp []

/-- At most one row per `(volunteer_id, reservation_date)` key, cancelled
rows included. -/
def uniqueKeys (rows : List Row) : Prop :=
  rows.Pairwise fun a b => ¬(a.volunteerId = b.volunteerId ∧ a.date = b.date)

end DbOps

section Interleaving

/-- Phase of one in-flight `handleReservation` execution: before the count
query, between the count query and the insert (holding the observed count),
or finished. -/
inductive Phase
  | start
  | checked (c : Nat)
  | finished (r : ReserveResult)
  deriving DecidableEq, Repr

/-- One in-flight reservation request: its parameters and its phase. -/
structure RTask where
  v : Nat
  d : Nat
  phase : Phase
  deriving DecidableEq, Repr

/-- One scheduler step of a task against the shared table: the count query
reads the current table; the insert step re-checks nothing about capacity
(the observed count may be stale) but is subject to the unique-key
constraint at insert time. -/
def stepTask (rows : List Row) (t : RTask) : RTask × List Row :=
  match t.phase with
  | Phase.start => ({ t with phase := Phase.checked (nonCancelledCount rows t.d) }, rows)
  | Phase.checked c =>
      if MAX_SLOTS ≤ c then
        ({ t with phase := Phase.finished ReserveResult.capacityExceeded }, rows)
      else if hasRow rows t.v t.d then
        ({ t with phase := Phase.finished ReserveResult.duplicateBooking }, rows)
      else
        ({ t with phase := Phase.finished ReserveResult.reserved },
         rows ++ [⟨t.v, t.d, RStatus.pending⟩])
  | Phase.finished _ => (t, rows)

/-- Run two concurrent reservation requests under a schedule: `true` steps
the first task, `false` the second. -/
def runSched : List Bool → List Row × RTask × RTask → List Row × RTask × RTask
  | [], s => s
  | b :: rest, (rows, t1, t2) =>
      if b then
        let p := stepTask rows t1
        runSched rest (p.2, p.1, t2)
      else
        let p := stepTask rows t2
        runSched rest (p.2, t1, p.1)

end Interleaving

section EmailPipeline

/-- Status column of the `email_logs` audit table: `pending`, `retrying`,
`sent` or `failed`. -/
inductive LogStatus
  | pending
  | retrying
  | sent
  | failed
  deriving DecidableEq, Repr

/-- One row of the `email_logs` audit table, with the columns the claims talk
about; `createdAt` and `sentAt` are integer minutes. -/
structure EmailLog where
  emailTo : String
  emailType : String
  relatedId : Option String
  status : LogStatus
  retryCount : Nat
  errorMessage : Option String
  messageId : Option String
  createdAt : Int
  sentAt : Option Int
  deriving DecidableEq, Repr

/-- Hexadecimal digit class of the UUID pattern (`[0-9a-f]` with the `i`
flag). -/
def isHexChar (c : Char) : Bool :=
  ('0' ≤ c && c ≤ '9') || ('a' ≤ c && c ≤ 'f') || ('A' ≤ c && c ≤ 'F')

/-- Version digit class `[1-5]` of the UUID pattern. -/
def isVersionChar (c : Char) : Bool := '1' ≤ c && c ≤ '5'

/-- Variant digit class `[89ab]` of the UUID pattern (case-insensitive). -/
def isVariantChar (c : Char) : Bool :=
  c == '8' || c == '9' || c == 'a' || c == 'b' || c == 'A' || c == 'B'

/-- The email sender's `UUID_REGEX` test, positionally: 36 characters, dashes
at offsets 8, 13, 18 and 23, a version digit at offset 14, a variant digit at
offset 19, hexadecimal digits elsewhere. -/
def matchesUuidPattern (s : String) : Bool :=
  let cs := s.data
  cs.length == 36 &&
  (List.range 36).all fun i =>
    let c := cs.getD i ' '
    if i == 8 || i == 13 || i == 18 || i == 23 then c == '-'
    else if i == 14 then isVersionChar c
    else if i == 19 then isVariantChar c
    else isHexChar c

/-- The email sender's `isValidUUID`: absent or empty strings are rejected
outright (`if (!str) return false`), otherwise the UUID pattern must match. -/
def isValidUUID : Option String → Bool
  | none => false
  | some s => if s == "" then false else matchesUuidPattern s

/-- The SQL function `check_duplicate_email` (migration 20260204142011):
there exists an `email_logs` row with the same recipient, type and
`related_id`, status `sent` or `pending`, created strictly later than `NOW()`
minus the window (in minutes). Rows whose `related_id` is NULL never match
the UUID parameter. -/
def check_duplicate_email (log : List EmailLog) (now : Int)
    (pTo pType rid : String) (window : Int) : Bool :=
  log.any fun e =>
    e.emailTo == pTo && e.emailType == pType && e.relatedId == some rid &&
    (e.status == LogStatus.sent || e.status == LogStatus.pending) &&
    decide (now - window < e.createdAt)

/-- The email sender's `checkDuplicateEmail`: returns `false` immediately for
an absent or non-UUID `relatedId`, otherwise forwards to the
`check_duplicate_email` RPC with a 5-minute window. -/
def checkDuplicateEmail (log : List EmailLog) (now : Int)
    (recipient ty : String) (relatedId : Option String) : Bool :=
  match relatedId with
  | none => false
  | some r =>
      if isValidUUID (some r) then check_duplicate_email log now recipient ty r 5
      else false

/-- Provider (Resend) response to one send call: a message id, an error
object with a message, or a response carrying neither. -/
inductive GwResp
  | ok (id : String)
  | err (msg : String)
  | empty
  deriving DecidableEq, Repr

/-- Message of the error thrown inside the retry loop for a failed provider
call, with the source's fallback texts. -/
def gwFailMsg : GwResp → String
  | GwResp.ok _ => ""
  | GwResp.err m => if m == "" then "Error desconocido de Resend" else m
  | GwResp.empty => "Resend no devolvio un ID de mensaje valido"

/-- Retry bound of the email sender (`const MAX_RETRIES = 3`). -/
def MAX_RETRIES : Nat := 3

/-- Result shape returned by `sendEmail` (`EmailSendResult`). -/
structure EmailSendResult where
  success : Bool
  messageId : Option String
  error : Option String
  deriving DecidableEq, Repr

/-- One `updateEmailLog` call on the audit row: the fields the update passes
(`none` fields are left untouched on the row). -/
structure LogUpdate where
  status : LogStatus
  retryCount : Nat
  errorMessage : Option String
  messageId : Option String
  setsSentAt : Bool
  deriving DecidableEq, Repr

/-- Outcome of the retry loop: the returned result, the sequence of audit-row
updates it issued, and the number of provider calls it made. -/
structure LoopOut where
  result : EmailSendResult
  updates : List LogUpdate
  calls : Nat
  deriving DecidableEq, Repr

/-- The `while (retryCount < MAX_RETRIES)` loop of `sendEmail`, with
`fuel = MAX_RETRIES - retryCount` driving the recursion. Attempt
`retryCount + 1` queries the gateway: a message id updates the row to `sent`
with `retry_count = retryCount` and returns success; otherwise `retryCount`
is incremented and, when the loop will run again, the row is updated to
`retrying` with the error message. Once the loop exits, the row is updated to
`failed` with `lastError?.message || 'Error desconocido'`. -/
def sendLoop (gw : Nat → GwResp) : Nat → Nat → Option String → LoopOut
  | 0, retryCount, lastErr =>
      { result := { success := false, messageId := none,
                    error := some ((lastErr.getD "Error desconocido al enviar correo")) },
        updates := [⟨LogStatus.failed, retryCount,
                     some (lastErr.getD "Error desconocido"), none, false⟩],
        calls := 0 }
  | fuel+1, retryCount, _lastErr =>
      match gw (retryCount + 1) with
      | GwResp.ok id =>
          { result := { success := true, messageId := some id, error := none },
            updates := [⟨LogStatus.sent, retryCount, none, some id, true⟩],
            calls := 1 }
      | r =>
          let msg := gwFailMsg r
          let rc := retryCount + 1
          let rest := sendLoop gw fuel rc (some msg)
          if rc < MAX_RETRIES then
            { result := rest.result,
              updates := ⟨LogStatus.retrying, rc, some msg, none, false⟩ :: rest.updates,
              calls := rest.calls + 1 }
          else
            { result := rest.result, updates := rest.updates, calls := rest.calls + 1 }

/-- Email payload fields of `sendEmail` that the logic reads (`html` and
`metadata` are opaque to it). -/
structure EmailPayload where
  emailTo : String
  subject : String
  emailType : String
  relatedId : Option String
  deriving DecidableEq, Repr

/-- Full outcome of a `sendEmail` call: its returned result, the audit-row
update sequence after the initial `pending` insert, the number of provider
calls, and the audit table afterwards. -/
structure SendOut where
  result : EmailSendResult
  updates : List LogUpdate
  calls : Nat
  log : List EmailLog
  deriving DecidableEq, Repr

/-- Sequence of statuses the audit row of a send goes through: the initial
`pending` insert of `logEmailAttempt`, then each update. -/
def auditStatuses (s : SendOut) : List LogStatus :=
  LogStatus.pending :: s.updates.map fun u => u.status

/-- Application of one `updateEmailLog` call to the audit row: only the
passed fields change. -/
def applyUpdate (now : Int) (e : EmailLog) (u : LogUpdate) : EmailLog :=
  { e with status := u.status,
           retryCount := u.retryCount,
           errorMessage := match u.errorMessage with
                           | none => e.errorMessage
                           | some m => some m,
           messageId := match u.messageId with
                        | none => e.messageId
                        | some i => some i,
           sentAt := if u.setsSentAt then some now else e.sentAt }

/-- The email sender's `sendEmail`: consult `checkDuplicateEmail` and return
a successful no-op when it reports a duplicate (no audit row, no provider
call); otherwise insert a `pending` audit row — storing `related_id` only
when it is a valid UUID — and run the retry loop, mirroring each update into
the row. The audit store and gateway configuration are modelled as
available. -/
def sendEmail (log : List EmailLog) (now : Int) (p : EmailPayload)
    (gw : Nat → GwResp) : SendOut :=
  if checkDuplicateEmail log now p.emailTo p.emailType p.relatedId then
    { result := { success := true, messageId := none,
                  error := some "Email already sent recently (duplicate prevention)" },
      updates := [], calls := 0, log := log }
  else
    let validRelatedId := if isValidUUID p.relatedId then p.relatedId else none
    let initial : EmailLog :=
      ⟨p.emailTo, p.emailType, validRelatedId, LogStatus.pending, 0, none, none, now, none⟩
    let lp := sendLoop gw MAX_RETRIES 0 none
    let final := lp.updates.foldl (applyUpdate now) initial
    { result := lp.result, updates := lp.updates, calls := lp.calls,
      log := log ++ [final] }

end EmailPipeline

section ConfirmReservation

/-- Admin decision of the `confirm-reservation` edge function. -/
inductive AdminAction
  | confirm
  | cancel
  deriving DecidableEq, Repr

/-- Status the edge function writes for an action (`action === "confirm" ?
"confirmed" : "cancelled"`); it does not depend on the current status. -/
def newStatusOf : AdminAction → RStatus
  | AdminAction.confirm => RStatus.confirmed
  | AdminAction.cancel => RStatus.cancelled

/-- A `reservations` row as the edge function reads it (joined with the
volunteer's email); ids are UUID strings. -/
structure ResRow where
  id : String
  status : RStatus
  volunteerEmail : String
  date : Nat
  confirmedAt : Option Int
  deriving DecidableEq, Repr

/-- Body of the `confirm-reservation` 200 response: `{ success: true,
status: newStatus, emailSent: emailResult.success }`. -/
structure ConfirmResponse where
  success : Bool
  status : RStatus
  emailSent : Bool
  deriving DecidableEq, Repr

/-- The `confirm-reservation` edge function after the admin check: fetch the
reservation by id (a missing row throws `Reservacion no encontrada` and the
catch block answers 500), write the new status — stamping `confirmed_at` on
confirm and clearing it on cancel — send the volunteer email with
`relatedId = reservation_id` through the shared sender, and answer 200 with
the new status and the auxiliary `emailSent` flag whatever the email outcome
was. Returns the response together with the updated tables. -/
def confirmReservation (db : List ResRow) (rid : String) (action : AdminAction)
    (elog : List EmailLog) (now : Int) (gw : Nat → GwResp) :
    Except String (ConfirmResponse × List ResRow × List EmailLog) :=
  match db.find? fun r => r.id == rid with
  | none => Except.error "Reservacion no encontrada"
  | some r =>
      let newStatus := newStatusOf action
      let db1 := db.map fun q =>
        if q.id == rid then
          { q with status := newStatus,
                   confirmedAt :=
                     if action = AdminAction.confirm then some now else none }
        else q
      let emailType :=
        if action = AdminAction.confirm then "confirmation" else "cancellation"
      let so := sendEmail elog now
        ⟨r.volunteerEmail, emailType, emailType, some rid⟩ gw
      Except.ok ({ success := true, status := newStatus,
                   emailSent := so.result.success }, db1, so.log)

end ConfirmReservation

section Scenarios

/-- Twenty-two pending reservations for date 0 (one below the capacity of
23), held by volunteers 0–21. -/
def raceRows : List Row := (List.range 22).map fun i => ⟨i, 0, RStatus.pending⟩

/-- Five pending reservations for date 0, held by volunteers 0–4. -/
def rows5 : List Row := (List.range 5).map fun i => ⟨i, 0, RStatus.pending⟩

/-- Gateway that fails on attempts 1 and 2 and returns a message id on
attempt 3. -/
def gwThirdTry : Nat → GwResp :=
  fun n => if n == 3 then GwResp.ok "mid-3" else GwResp.err "timeout"

/-- Gateway that fails on every attempt. -/
def gwAlwaysFail : Nat → GwResp := fun _ => GwResp.err "provider down"

/-- Gateway that succeeds immediately. -/
def gwOk : Nat → GwResp := fun _ => GwResp.ok "mid-1"

/-- Payload of the unfilled-capacity alert for service day 2026-10-12:
recipient is the admin address, type `unfilled_slots_alert`, correlation key
`alert-2026-10-12` as built by the check-unfilled-slots handler. -/
def alertPayload : EmailPayload :=
  ⟨"admin@reffetorio.mx", "Alerta de cupos", "unfilled_slots_alert",
   some "alert-2026-10-12"⟩

/-- Plain test payload without a correlation key. -/
def plainPayload : EmailPayload := ⟨"a@example.com", "s", "test", none⟩

end Scenarios

/-- C1: the booking path is not serialized — two concurrent
`handleReservation` calls for the same date, both observing the count
`22 = capacity - 1`, both pass the capacity check and both insert, leaving
24 non-cancelled reservations for the date, one more than `maxPerDay = 23`.
The schedule interleaves the two count queries before either insert. -/
theorem c1_race_exceeds_capacity :
    (runSched [true, false, true, false]
        (raceRows, ⟨100, 0, Phase.start⟩, ⟨101, 0, Phase.start⟩)).2.1.phase
      = Phase.finished ReserveResult.reserved ∧
    (runSched [true, false, true, false]
        (raceRows, ⟨100, 0, Phase.start⟩, ⟨101, 0, Phase.start⟩)).2.2.phase
      = Phase.finished ReserveResult.reserved ∧
    nonCancelledCount raceRows 0 = MAX_SLOTS - 1 ∧
    nonCancelledCount
      (runSched [true, false, true, false]
        (raceRows, ⟨100, 0, Phase.start⟩, ⟨101, 0, Phase.start⟩)).1 0
      = MAX_SLOTS + 1 := by decide

/-- C2: the unfilled-capacity alert uses `relatedId = "alert-<date>"`, which
is not a UUID, so `checkDuplicateEmail` rejects it without consulting the
log and a second trigger within the dedup window dispatches a second alert
email (one provider call each) instead of being suppressed. -/
theorem c2_alert_not_suppressed :
    isValidUUID alertPayload.relatedId = false ∧
    (sendEmail [] 0 alertPayload gwOk).calls = 1 ∧
    (sendEmail [] 0 alertPayload gwOk).result.success = true ∧
    checkDuplicateEmail (sendEmail [] 0 alertPayload gwOk).log 1
      alertPayload.emailTo alertPayload.emailType alertPayload.relatedId = false ∧
    (sendEmail (sendEmail [] 0 alertPayload gwOk).log 1 alertPayload gwOk).calls
      = 1 := by decide

/-- C3: counterexample — the status update of `decide` is unguarded, so a
reservation that reached the terminal state `cancelled` (via a cancel
decision) is moved back to `confirmed` by a subsequent confirm decision;
the transition `cancelled -confirm-> confirmed` is applied, contradicting
the claim that no reservation moves out of `cancelled`. -/
theorem c3_cancelled_to_confirmed :
    ((confirmReservation [⟨"a", RStatus.pending, "v@example.com", 0, none⟩]
        "a" AdminAction.cancel [] 0 gwOk).toOption.map fun x => x.2.1)
      = some [⟨"a", RStatus.cancelled, "v@example.com", 0, none⟩] ∧
    ((confirmReservation [⟨"a", RStatus.cancelled, "v@example.com", 0, none⟩]
        "a" AdminAction.confirm [] 0 gwOk).toOption.map fun x => x.2.1)
      = some [⟨"a", RStatus.confirmed, "v@example.com", 0, some 0⟩] ∧
    ((confirmReservation [⟨"a", RStatus.cancelled, "v@example.com", 0, none⟩]
        "a" AdminAction.confirm [] 0 gwOk).toOption.map fun x => x.1.status)
      = some RStatus.confirmed ∧
    RStatus.confirmed ≠ RStatus.cancelled := by decide

/-- C3 amended: `decide` writes the action's target status unconditionally —
from any current status, confirm yields `confirmed` (stamping
`confirmed_at`) and cancel yields `cancelled` (clearing `confirmed_at`); in
particular cancel on an already-cancelled reservation re-applies `cancelled`
as a no-op, but confirm on a cancelled reservation moves it out of
`cancelled` to `confirmed`. -/
theorem c3_amended_unconditional_transition :
    (∀ (s : RStatus) (a : AdminAction) (gw : Nat → GwResp),
      ((confirmReservation [⟨"x", s, "v@example.com", 0, none⟩]
          "x" a [] 0 gw).toOption.map fun x => x.2.1)
        = some [⟨"x", newStatusOf a, "v@example.com", 0,
                 if a = AdminAction.confirm then some 0 else none⟩]) ∧
    newStatusOf AdminAction.cancel = RStatus.cancelled := by
  refine ⟨fun s a gw => ?_, rfl⟩
  cases a <;> rfl

/-- C4: when the gateway fails on attempts 1 and 2 and returns a message id
on attempt 3 (and the send is not suppressed), `sendEmail` returns success
with that message id, the audit row goes through
`pending, retrying, retrying, sent`, and the final update carries
`retry_count = 2`. -/
theorem c4_third_attempt_delivers (gw : Nat → GwResp) (e1 e2 id : String)
    (log : List EmailLog) (now : Int) (p : EmailPayload)
    (hdup : checkDuplicateEmail log now p.emailTo p.emailType p.relatedId = false)
    (h1 : gw 1 = GwResp.err e1) (h2 : gw 2 = GwResp.err e2)
    (h3 : gw 3 = GwResp.ok id) :
    (sendEmail log now p gw).result.success = true ∧
    (sendEmail log now p gw).result.messageId = some id ∧
    auditStatuses (sendEmail log now p gw) =
      [LogStatus.pending, LogStatus.retrying, LogStatus.retrying, LogStatus.sent] ∧
    ((sendEmail log now p gw).updates.getLast?.map fun u => u.retryCount)
      = some 2 := by
  have hloop : sendLoop gw 3 0 none =
      { result := { success := true, messageId := some id, error := none },
        updates := [⟨LogStatus.retrying, 1, some (gwFailMsg (GwResp.err e1)), none, false⟩,
                    ⟨LogStatus.retrying, 2, some (gwFailMsg (GwResp.err e2)), none, false⟩,
                    ⟨LogStatus.sent, 2, none, some id, true⟩],
        calls := 3 } := by
    simp [sendLoop, h1, h2, h3, MAX_RETRIES]
  simp [sendEmail, hdup, MAX_RETRIES, hloop, auditStatuses]

/-- C4 witness: concrete run of the scenario through `c4_third_attempt_delivers`
with the `gwThirdTry` gateway and an unsuppressed payload. -/
theorem c4_third_attempt_delivers_witness :
    (sendEmail [] 0 plainPayload gwThirdTry).result.success = true ∧
    (sendEmail [] 0 plainPayload gwThirdTry).result.messageId = some "mid-3" ∧
    auditStatuses (sendEmail [] 0 plainPayload gwThirdTry) =
      [LogStatus.pending, LogStatus.retrying, LogStatus.retrying, LogStatus.sent] ∧
    ((sendEmail [] 0 plainPayload gwThirdTry).updates.getLast?.map
        fun u => u.retryCount) = some 2 :=
  c4_third_attempt_delivers gwThirdTry "timeout" "timeout" "mid-3" [] 0 plainPayload
    (by decide) (by decide) (by decide) (by decide)

/-- C5: when the gateway fails on every attempt (and the send is not
suppressed), `sendEmail` makes exactly 3 provider calls, returns a failure
carrying the last error, and the audit row ends `failed` with a non-empty
error message after `pending, retrying, retrying`. -/
theorem c5_exhausted_after_three (gw : Nat → GwResp) (e1 e2 e3 : String)
    (log : List EmailLog) (now : Int) (p : EmailPayload)
    (hdup : checkDuplicateEmail log now p.emailTo p.emailType p.relatedId = false)
    (h1 : gw 1 = GwResp.err e1) (h2 : gw 2 = GwResp.err e2)
    (h3 : gw 3 = GwResp.err e3) :
    (sendEmail log now p gw).calls = 3 ∧
    (sendEmail log now p gw).result.success = false ∧
    (sendEmail log now p gw).result.error = some (gwFailMsg (GwResp.err e3)) ∧
    gwFailMsg (GwResp.err e3) ≠ "" ∧
    auditStatuses (sendEmail log now p gw) =
      [LogStatus.pending, LogStatus.retrying, LogStatus.retrying, LogStatus.failed] ∧
    (sendEmail log now p gw).updates.getLast? =
      some ⟨LogStatus.failed, 3, some (gwFailMsg (GwResp.err e3)), none, false⟩ := by
  have hne : gwFailMsg (GwResp.err e3) ≠ "" := by
    simp only [gwFailMsg]
    split
    · decide
    · simp_all
  have hloop : sendLoop gw 3 0 none =
      { result := { success := false, messageId := none,
                    error := some (gwFailMsg (GwResp.err e3)) },
        updates := [⟨LogStatus.retrying, 1, some (gwFailMsg (GwResp.err e1)), none, false⟩,
                    ⟨LogStatus.retrying, 2, some (gwFailMsg (GwResp.err e2)), none, false⟩,
                    ⟨LogStatus.failed, 3, some (gwFailMsg (GwResp.err e3)), none, false⟩],
        calls := 3 } := by
    simp [sendLoop, h1, h2, h3, MAX_RETRIES]
  simp [sendEmail, hdup, MAX_RETRIES, hloop, auditStatuses, hne]

/-- C5 witness: concrete run of the scenario through `c5_exhausted_after_three`
with the `gwAlwaysFail` gateway and an unsuppressed payload. -/
theorem c5_exhausted_after_three_witness :
    (sendEmail [] 0 plainPayload gwAlwaysFail).calls = 3 ∧
    (sendEmail [] 0 plainPayload gwAlwaysFail).result.success = false ∧
    (sendEmail [] 0 plainPayload gwAlwaysFail).result.error =
      some (gwFailMsg (GwResp.err "provider down")) ∧
    gwFailMsg (GwResp.err "provider down") ≠ "" ∧
    auditStatuses (sendEmail [] 0 plainPayload gwAlwaysFail) =
      [LogStatus.pending, LogStatus.retrying, LogStatus.retrying, LogStatus.failed] ∧
    (sendEmail [] 0 plainPayload gwAlwaysFail).updates.getLast? =
      some ⟨LogStatus.failed, 3, some (gwFailMsg (GwResp.err "provider down")),
            none, false⟩ :=
  c5_exhausted_after_three gwAlwaysFail "provider down" "provider down"
    "provider down" [] 0 plainPayload (by decide) (by decide) (by decide) (by decide)

/-- C6: `checkDuplicateEmail` (the DuplicateSuppressor, window 5 minutes)
returns true exactly when the audit log holds an attempt with the identical
recipient, type and `relatedId`, with status `sent` or `pending`, created
strictly within the trailing window — and, whatever the log holds, it
returns false for an absent or malformed (non-UUID) `relatedId`; a
different `relatedId` or an entry older than the window therefore yields
false. -/
theorem c6_suppression_characterisation (log : List EmailLog) (now : Int)
    (recipient ty : String) (rid : Option String) :
    checkDuplicateEmail log now recipient ty rid = true ↔
      ∃ r, rid = some r ∧ isValidUUID (some r) = true ∧
        ∃ e ∈ log, e.emailTo = recipient ∧ e.emailType = ty ∧
          e.relatedId = some r ∧
          (e.status = LogStatus.sent ∨ e.status = LogStatus.pending) ∧
          now - 5 < e.createdAt := by
  cases rid with
  | none => simp [checkDuplicateEmail]
  | some r =>
      by_cases hv : isValidUUID (some r) = true
      · simp [checkDuplicateEmail, hv, check_duplicate_email, List.any_eq_true]
        constructor
        · rintro ⟨e, he, h⟩
          exact ⟨e, he, by simp_all⟩
        · rintro ⟨e, he, h⟩
          exact ⟨e, he, by simp_all⟩
      · simp [checkDuplicateEmail, hv]

/-- C7: whenever the reservation row is found (so the status update
commits), the `confirm-reservation` handler answers 200 with
`success = true` and the new status, for every gateway behaviour; the
notification outcome surfaces only as the auxiliary `emailSent` flag, which
equals the email sender's `success` field. -/
theorem c7_decision_independent_of_email (db : List ResRow) (rid : String)
    (a : AdminAction) (elog : List EmailLog) (now : Int) (gw : Nat → GwResp)
    (r : ResRow) (h : db.find? (fun q => q.id == rid) = some r) :
    ∃ out, confirmReservation db rid a elog now gw = Except.ok out ∧
      out.1.success = true ∧
      out.1.status = newStatusOf a ∧
      out.1.emailSent =
        (sendEmail elog now
          ⟨r.volunteerEmail,
           if a = AdminAction.confirm then "confirmation" else "cancellation",
           if a = AdminAction.confirm then "confirmation" else "cancellation",
           some rid⟩ gw).result.success := by
  unfold confirmReservation
  rw [h]
  exact ⟨_, rfl, rfl, rfl, rfl⟩

/-- C7 witness: a concrete decision through `c7_decision_independent_of_email`
with an always-failing gateway — the decision still reports success with the
new status, and `emailSent` carries the email failure. -/
theorem c7_decision_independent_of_email_witness :
    ∃ out, confirmReservation [⟨"a", RStatus.pending, "v@example.com", 0, none⟩]
        "a" AdminAction.confirm [] 0 gwAlwaysFail = Except.ok out ∧
      out.1.success = true ∧
      out.1.status = newStatusOf AdminAction.confirm ∧
      out.1.emailSent =
        (sendEmail [] 0
          ⟨"v@example.com",
           if AdminAction.confirm = AdminAction.confirm then "confirmation"
           else "cancellation",
           if AdminAction.confirm = AdminAction.confirm then "confirmation"
           else "cancellation",
           some "a"⟩ gwAlwaysFail).result.success :=
  c7_decision_independent_of_email
    [⟨"a", RStatus.pending, "v@example.com", 0, none⟩] "a" AdminAction.confirm
    [] 0 gwAlwaysFail ⟨"a", RStatus.pending, "v@example.com", 0, none⟩ (by decide)

/-- C8: counterexample — with `admin_settings.max_volunteers_per_day` set to
5 and 5 non-cancelled reservations for the date, a reserve still succeeds,
because `handleReservation` compares against the hard-coded constant 23 and
never reads the admin setting: the policy-driven reserve of the claim would
return `CapacityExceeded` while the code reserves a 6th slot. -/
theorem c8_admin_setting_ignored :
    (handleReservation rows5 100 0).1 = ReserveResult.reserved ∧
    (reserveWithPolicy 5 rows5 100 0).1 = ReserveResult.capacityExceeded ∧
    nonCancelledCount (handleReservation rows5 100 0).2 0 = 6 ∧
    (5 : Nat) ≠ MAX_SLOTS := by decide

/-- C8 amended: the capacity bound compared against the date's non-cancelled
count on every reserve is the hard-coded constant `MAX_SLOTS = 23`; the
booking path coincides with the policy-driven reserve only at
`maxPerDay = 23`, so an admin change to
`admin_settings.max_volunteers_per_day` has no effect on reserves. -/
theorem c8_amended_constant_bound :
    (∀ rows v d, handleReservation rows v d = reserveWithPolicy 23 rows v d) ∧
    MAX_SLOTS = 23 :=
  ⟨fun _ _ _ => rfl, rfl⟩

/-- C9: counterexample — `handleReservation` performs no date validation:
invoked for day 5 (a Saturday) while today is day 10 (so the date is both a
weekend day and in the past), it returns a successful reservation and
inserts the row, instead of rejecting with `InvalidDate` and inserting
nothing. -/
theorem c9_no_date_validation :
    isWeekendDay 5 = true ∧ isPastDate 5 10 = true ∧
    handleReservation [] 100 5 =
      (ReserveResult.reserved, [⟨100, 5, RStatus.pending⟩]) := by decide

/-- C9 amended: past-date and weekend rejection happens at selection time in
the calendar, not in `handleReservation`: the grid shows only the five days
Monday–Friday of a Monday-started week and disables past days, so any
selectable day is a non-past weekday; `handleReservation` itself checks only
capacity and uniqueness. -/
theorem c9_amended_selection_guard (w i today avail : Nat) (hasRes : Bool)
    (hw : w % 7 = 0) (hi : i < 5)
    (hsel : selectableDay (weekDayDate w i) today avail hasRes = true) :
    isWeekendDay (weekDayDate w i) = false ∧
    isPastDate (weekDayDate w i) today = false := by
  constructor
  · have h7 : (w + i) % 7 = i := by omega
    simp [isWeekendDay, weekDayDate, h7]
    omega
  · simp [selectableDay, Bool.or_eq_true, Bool.not_eq_true'] at hsel
    exact hsel.1.1

/-- C9 amended witness: day 0 (a Monday) selected on day 0 with a free slot
and no prior reservation, through `c9_amended_selection_guard`. -/
theorem c9_amended_selection_guard_witness :
    isWeekendDay (weekDayDate 0 0) = false ∧
    isPastDate (weekDayDate 0 0) 0 = false :=
  c9_amended_selection_guard 0 0 0 1 false (by decide) (by decide) (by decide)

/-- Absence of a `(volunteer_id, reservation_date)` key, elementwise. -/
theorem hasRow_eq_false_iff (rows : List Row) (v d : Nat) :
    hasRow rows v d = false ↔ ∀ r ∈ rows, ¬(r.volunteerId = v ∧ r.date = d) := by
  simp [hasRow, List.any_eq_true, not_and]

/-- Every table operation preserves uniqueness of the
`(volunteer_id, reservation_date)` key: a conflicting insert is refused by
the constraint, and status updates leave the key fields untouched. -/
theorem uniqueKeys_applyOp (rows : List Row) (op : DbOp) (h : uniqueKeys rows) :
    uniqueKeys (applyOp rows op) := by
  cases op with
  | insert v d =>
      by_cases hr : hasRow rows v d
      · simpa [applyOp, hr] using h
      · have hall : ∀ r ∈ rows, ¬(r.volunteerId = v ∧ r.date = d) :=
          (hasRow_eq_false_iff rows v d).mp (by simpa using hr)
        unfold uniqueKeys
        simp only [applyOp, hr, if_neg, Bool.false_eq_true, if_false]
        rw [List.pairwise_append]
        refine ⟨h, List.pairwise_singleton _ _, ?_⟩
        intro a ha b hb
        simp only [List.mem_singleton] at hb
        subst hb
        exact hall a ha
  | setStatus v d s =>
      unfold uniqueKeys applyOp
      rw [List.pairwise_map]
      refine h.imp ?_
      intro a b hab
      have ha : ∀ r : Row,
          ((if r.volunteerId == v && r.date == d then { r with status := s }
            else r) : Row).volunteerId = r.volunteerId ∧
          ((if r.volunteerId == v && r.date == d then { r with status := s }
            else r) : Row).date = r.date := by
        intro r
        split <;> exact ⟨rfl, rfl⟩
      rw [(ha a).1, (ha a).2, (ha b).1, (ha b).2]
      exact hab

/-- C10: every state reachable from the empty table through the
repository's inserts and status updates holds at most one reservation row
per `(volunteerId, date)` pair, cancelled rows included; consequently a
volunteer with a cancelled reservation for a date who books that date again
(with capacity available) hits the duplicate-key error and
`handleReservation` reports a duplicate booking, inserting nothing. -/
theorem c10_unique_key_blocks_rebooking :
    (∀ ops, uniqueKeys (runOps ops)) ∧
    (∀ (rows : List Row) (v d : Nat),
      (⟨v, d, RStatus.cancelled⟩ : Row) ∈ rows →
      nonCancelledCount rows d < MAX_SLOTS →
      handleReservation rows v d = (ReserveResult.duplicateBooking, rows)) := by
  constructor
  · have aux : ∀ (ops : List DbOp) (rows : List Row),
        uniqueKeys rows → uniqueKeys (ops.foldl applyOp rows) := by
      intro ops
      induction ops with
      | nil => intro rows h; simpa using h
      | cons op rest ih =>
          intro rows h
          exact ih _ (uniqueKeys_applyOp rows op h)
    exact fun ops => aux ops [] List.Pairwise.nil
  · intro rows v d hmem hcount
    have h1 : ¬(MAX_SLOTS ≤ nonCancelledCount rows d) := by omega
    have h2 : hasRow rows v d = true := by
      simp [hasRow, List.any_eq_true]
      exact ⟨⟨v, d, RStatus.cancelled⟩, hmem, by simp⟩
    simp [handleReservation, h1, h2]

/-- C10 witness: a volunteer books day 0, the booking is cancelled, and the
rebooking attempt is refused as a duplicate, through
`c10_unique_key_blocks_rebooking`. -/
theorem c10_unique_key_blocks_rebooking_witness :
    uniqueKeys (runOps [DbOp.insert 1 0, DbOp.setStatus 1 0 RStatus.cancelled,
                        DbOp.insert 1 0]) ∧
    handleReservation [⟨1, 0, RStatus.cancelled⟩] 1 0 =
      (ReserveResult.duplicateBooking, [⟨1, 0, RStatus.cancelled⟩]) :=
  ⟨c10_unique_key_blocks_rebooking.1
      [DbOp.insert 1 0, DbOp.setStatus 1 0 RStatus.cancelled, DbOp.insert 1 0],
   c10_unique_key_blocks_rebooking.2 [⟨1, 0, RStatus.cancelled⟩] 1 0
      (by decide) (by decide)⟩
